import Mathlib

/-!
Verification of the file-arrival-to-upload relay in `src/index.ts`.

The program is a small event relay: it validates three required environment
variables, creates a Discord client and a chokidar filesystem watcher at
module load, attaches the per-file handler once the client is ready, and on
each qualifying `add` event re-resolves the destination channel and uploads
the file.  We embed the program shallowly: each observable effect of the
script (a console log line, a client/watcher creation, a network call, a
filesystem stat) is an `Action`, pure helpers from Node's `path` module are
translated as Lean functions on character lists, and the outcome of each
external call (filesystem existence, channel fetch, message send) is an input
to the embedded handler, so the handler itself is a pure function from those
oracle results to the list of actions it performs.
-/

namespace FileRelay

/-- Console log severities used by the script (`debugLog`, `console.log`,
`console.warn`, `console.error`). -/
inductive Level where
  | debug
  | info
  | warn
  | error
deriving DecidableEq, Repr

/-- One observable effect of the script.  Log payloads are the template
strings of the source with the interpolated values concatenated; formatting
of structured console arguments is abstracted to a fixed string. -/
inductive Action where
  /-- A console line at the given severity. -/
  | log : Level → String → Action
  /-- `new Client({...})`, line 29. -/
  | createClient : Action
  /-- `chokidar.watch(WATCH_PATH, ...)`, line 38: filesystem watch activity begins. -/
  | createWatcher : String → Action
  /-- `client.on(Events.Debug/Warn/Error, ...)`, lines 48-50. -/
  | registerClientDiagnosticHandlers : Action
  /-- `client.on(Events.ClientReady, ...)`, line 53. -/
  | registerReadyHandler : Action
  /-- `watcher.on("ready", ...)`, line 100. -/
  | registerWatcherReadyHandler : Action
  /-- `watcher.on("add", ...)`, line 104: the File Event handler is attached. -/
  | registerAddHandler : Action
  /-- `watcher.on("error", ...)`, line 139. -/
  | registerWatcherErrorHandler : Action
  /-- `client.login(token)`, line 146: the one authentication network call. -/
  | loginCall : Action
  /-- `client.channels.fetch(id)`, lines 68 and 116: a channel-resolution network call. -/
  | fetchChannel : String → Action
  /-- `channel.send({files: [{attachment, name}]})`, line 122: the upload call,
  carrying the file path and the attachment display name. -/
  | sendFile : String → String → Action
  /-- `existsSync(filePath)`, line 111. -/
  | statFile : String → Action
  /-- An explicit process-exit call (`process.exit`); the source never performs one. -/
  | exit : Action
deriving DecidableEq, Repr

/-- Predicate: the action is the watcher creation. -/
def isCreateWatcher : Action → Bool
  | .createWatcher _ => true
  | _ => false

/-- Predicate: the action is the login call. -/
def isLoginCall : Action → Bool
  | .loginCall => true
  | _ => false

/-- Predicate: the action is a channel fetch. -/
def isFetchChannel : Action → Bool
  | .fetchChannel _ => true
  | _ => false

/-- Predicate: the action is an upload (`channel.send`). -/
def isSendFile : Action → Bool
  | .sendFile _ _ => true
  | _ => false

/-- Predicate: the action is a call to the messaging platform
(login, channel fetch, or send). -/
def isPlatformCall (a : Action) : Bool :=
  isLoginCall a || isFetchChannel a || isSendFile a

/-- Predicate: the action is a console log line. -/
def isLogAction : Action → Bool
  | .log _ _ => true
  | _ => false

/-- Actions that a runtime event handler (ready / add / login-failure) may
produce: logs, stats, platform fetch/send, and the two handler registrations
done inside `setupFileWatcher`.  Creating the client or watcher, registering
the startup handlers, calling login, and exiting are not among them. -/
def isRuntimeAction : Action → Bool
  | .log _ _ => true
  | .statFile _ => true
  | .fetchChannel _ => true
  | .sendFile _ _ => true
  | .registerWatcherReadyHandler => true
  | .registerAddHandler => true
  | _ => false

/-! ## Node `path` helpers (POSIX semantics, as used on lines 108 and 125) -/

/-- Lowercase a string character-wise (`String.prototype.toLowerCase` on the
ASCII range relevant to extension comparison). -/
def toLower (s : String) : String :=
  String.mk (s.data.map Char.toLower)

/-- The characters after the last `/` of the list (the final path segment,
empty when the path ends in a separator). -/
def lastSegment (cs : List Char) : List Char :=
  (cs.reverse.takeWhile (fun c => c ≠ '/')).reverse

/-- Drop trailing `/` separators. -/
def stripTrailingSlashes (cs : List Char) : List Char :=
  (cs.reverse.dropWhile (fun c => c = '/')).reverse

/-- Node `path.basename` (POSIX): ignore trailing separators, then take the
part after the last separator; a path of only separators has basename `/`. -/
def basenameL (cs : List Char) : List Char :=
  let t := stripTrailingSlashes cs
  if t.isEmpty then (if cs.isEmpty then [] else ['/']) else lastSegment t

/-- Node `path.basename` on strings. -/
def basename (p : String) : String :=
  String.mk (basenameL p.data)

/-- Node `path.extname` (POSIX) on the character list: the substring of the
final segment from its last `.` onward, except that a leading dot does not
start an extension (`.index` has none) and `..` has none. -/
def extnameL (cs : List Char) : List Char :=
  let b := lastSegment cs
  if b = ['.', '.'] then []
  else
    let t := b.reverse.takeWhile (fun c => c ≠ '.')
    if t.length = b.length then []
    else
      let ext := '.' :: t.reverse
      if ext.length = b.length then [] else ext

/-- Node `path.extname` on strings. -/
def extname (p : String) : String :=
  String.mk (extnameL p.data)

/-! ## Startup validation and module-load sequence (lines 20-45, 48-64, 139-149) -/

/-- Line 20: the three required environment variables, in check order. -/
def requiredEnvVars : List String :=
  ["DISCORD_TOKEN", "CHANNEL_ID", "WATCH_PATH"]

/-- JavaScript falsiness of `process.env[v]` (line 22): the variable is
absent, or present with the empty string as value. -/
def isFalsy : Option String → Bool
  | none => true
  | some s => s.isEmpty

/-- The value logged for a variable on line 25: the credential is redacted,
the others are printed verbatim. -/
def shownValue (env : String → Option String) (v : String) : String :=
  if v = "DISCORD_TOKEN" then "[HIDDEN]" else (env v).getD ""

/-- The validation loop of lines 21-26 over a list of variable names: for
each name in order, throw on a falsy value, otherwise emit one debug line
and continue.  Returns the emitted actions and either success or the thrown
error message. -/
def validateEnvList (env : String → Option String) :
    List String → List Action × Except String Unit
  | [] => ([], Except.ok ())
  | v :: rest =>
    if isFalsy (env v) then
      ([], Except.error ("Missing required environment variable: " ++ v))
    else
      let line := Action.log .debug (v ++ " is set to: " ++ shownValue env v)
      let r := validateEnvList env rest
      (line :: r.1, r.2)

/-- The startup validator (lines 20-26): the validation loop run on
`requiredEnvVars`. -/
def validateEnv (env : String → Option String) : List Action × Except String Unit :=
  validateEnvList env requiredEnvVars

/-- The module-load sequence of the script: validation (lines 20-26), and —
only if it did not throw — client creation (line 29), watcher creation
(line 38), event-handler registrations (lines 48-64 and 139), the connect
log (line 145) and the login call (line 146).  A throw during validation
aborts the module, so nothing after the loop runs. -/
def startup (env : String → Option String) : List Action × Except String Unit :=
  let v := validateEnv env
  match v.2 with
  | Except.error e => (v.1, Except.error e)
  | Except.ok _ =>
    (v.1 ++
      [Action.createClient,
       Action.createWatcher ((env "WATCH_PATH").getD ""),
       Action.registerClientDiagnosticHandlers,
       Action.registerReadyHandler,
       Action.registerWatcherErrorHandler,
       Action.log .info "🔄 Attempting to connect to Discord...",
       Action.loginCall],
     Except.ok ())

/-! ## Per-event File Event handler (lines 104-135) -/

/-- The result of `channel instanceof TextChannel` and the channel's display
name, for a channel object returned by `client.channels.fetch`. -/
structure Channel where
  isTextChannel : Bool
  name : String
deriving DecidableEq, Repr

/-- The oracle results of the external calls one `add`-event handling can
make: the event's file path, the `existsSync` answer (line 111), the channel
fetch outcome (line 116; a rejection, `null`, or a channel object), and the
send outcome (line 122). -/
structure EventEnv where
  filePath : String
  fileExists : Bool
  fetchResult : Except String (Option Channel)
  sendResult : Except String Unit

/-- The body of the `try` block of the `add` handler (lines 105-130):
the actions performed and, if an exception escapes the body (a thrown
`Invalid channel` error or a rejected fetch/send), the error it carries. -/
def handleAddBody (cid : String) (ev : EventEnv) : List Action × Except String Unit :=
  let d1 := Action.log .debug ("File detected: " ++ ev.filePath)
  if toLower (extname ev.filePath) = ".png" then
    let l1 := Action.log .info ("📁 New PNG file detected: " ++ ev.filePath)
    let s1 := Action.statFile ev.filePath
    if ev.fileExists = false then
      ([d1, l1, s1, Action.log .error ("❌ File " ++ ev.filePath ++ " no longer exists")],
       Except.ok ())
    else
      let f1 := Action.fetchChannel cid
      match ev.fetchResult with
      | Except.error e => ([d1, l1, s1, f1], Except.error e)
      | Except.ok none =>
        ([d1, l1, s1, f1], Except.error "Invalid channel or channel not found")
      | Except.ok (some ch) =>
        if ch.isTextChannel = false then
          ([d1, l1, s1, f1], Except.error "Invalid channel or channel not found")
        else
          let d2 := Action.log .debug "Attempting to send file to Discord..."
          let u1 := Action.sendFile ev.filePath (basename ev.filePath)
          match ev.sendResult with
          | Except.error e => ([d1, l1, s1, f1, d2, u1], Except.error e)
          | Except.ok _ =>
            ([d1, l1, s1, f1, d2, u1,
              Action.log .info ("✅ Successfully posted " ++ ev.filePath ++ " to Discord")],
             Except.ok ())
  else ([d1], Except.ok ())

/-- The full `add` handler (lines 104-135): the `try` body with its
`catch` (lines 131-134), which converts any escaped error into two log
lines.  The handler therefore always completes normally. -/
def handleAdd (cid : String) (ev : EventEnv) : List Action :=
  let r := handleAddBody cid ev
  match r.2 with
  | Except.ok _ => r.1
  | Except.error e =>
    r.1 ++ [Action.log .error ("❌ Error processing file: " ++ e),
            Action.log .debug ("Error details: " ++ e)]

/-- Handling a sequence of independent `add` events: each event's handler
runs on its own oracle results, and the traces concatenate. -/
def handleEvents (cid : String) : List EventEnv → List Action
  | [] => []
  | ev :: rest => handleAdd cid ev ++ handleEvents cid rest

/-! ## Channel verification and ready handler (lines 53-64, 66-95) -/

/-- The oracle results of `verifyChannelAccess`: the startup channel fetch
outcome (line 68) and the three permission flags read on lines 81-83
(`permissions?.has(...)`, `false` when `permissionsFor` returned `null`). -/
structure VerifyEnv where
  fetchResult : Except String (Option Channel)
  permSend : Bool
  permAttach : Bool
  permView : Bool

/-- `verifyChannelAccess` (lines 66-95): fetch the channel; log an error and
return on a missing channel, a non-text channel, or missing send/attach
permission; otherwise log success.  Its own `catch` (lines 92-94) turns a
rejected fetch into an error log, so it always completes normally. -/
def verifyChannelAccess (cid : String) (venv : VerifyEnv) : List Action :=
  let f := Action.fetchChannel cid
  match venv.fetchResult with
  | Except.error e => [f, Action.log .error ("❌ Error verifying channel access: " ++ e)]
  | Except.ok none => [f, Action.log .error "❌ Channel not found!"]
  | Except.ok (some ch) =>
    if ch.isTextChannel = false then
      [f, Action.log .error "❌ Channel is not a text channel!"]
    else
      let permLog := Action.log .debug
        ("Channel permissions: sendMessages=" ++ toString venv.permSend ++
         " attachFiles=" ++ toString venv.permAttach ++
         " viewChannel=" ++ toString venv.permView)
      if venv.permSend = false ∨ venv.permAttach = false then
        [f, permLog, Action.log .error "❌ Bot lacks required permissions in the channel!"]
      else
        [f, permLog, Action.log .info ("✅ Successfully verified access to channel: " ++ ch.name)]

/-- The `ClientReady` handler (lines 53-64): log readiness, run
`verifyChannelAccess` (not awaited, and unconditionally followed by
`setupFileWatcher`), then `setupFileWatcher` (lines 97-136), which logs and
attaches the watcher `ready` and `add` handlers. -/
def onClientReady (cid : String) (venv : VerifyEnv) : List Action :=
  Action.log .info "✅ Bot successfully logged in as <user.tag>" ::
  Action.log .debug "Bot is ready with following details: <details>" ::
  (verifyChannelAccess cid venv ++
    [Action.log .debug "Setting up file watcher for path: <WATCH_PATH>",
     Action.registerWatcherReadyHandler,
     Action.registerAddHandler])

/-- The `catch` handler of `client.login` (lines 146-149): two log lines,
nothing else — no retry, no exit call. -/
def loginFailureActions (e : String) : List Action :=
  [Action.log .error ("❌ Failed to connect to Discord: " ++ e),
   Action.log .debug ("Login error details: " ++ e)]

/-! ## Runtime state machine

After module load, the process reacts to asynchronous events: the login
promise resolving (firing `ClientReady`) or rejecting, and the watcher
delivering `add` events.  We model the process as a transition system whose
state records which callbacks have been registered and the accumulated
action trace. -/

/-- Process state after module load: whether module load completed (the
validation did not throw), whether the login promise has rejected, whether
`ClientReady` has fired (authentication succeeded), whether the `add`
handler has been attached by `setupFileWatcher`, and the trace of actions
performed so far. -/
structure SysState where
  started : Bool
  loginFailed : Bool
  ready : Bool
  addHandlerOn : Bool
  trace : List Action
deriving Repr

/-- The state right after module load on environment `env`: the startup
actions have run; no asynchronous event has been dispatched yet. -/
def initState (env : String → Option String) : SysState :=
  { started := match (startup env).2 with | Except.ok _ => true | Except.error _ => false
    loginFailed := false
    ready := false
    addHandlerOn := false
    trace := (startup env).1 }

/-- One asynchronous event dispatch.  `cid` is the destination channel id
(`CHANNEL_ID`).  The login promise settles at most once: `ClientReady` fires
only if the module loaded and the login neither failed nor already
succeeded, and the failure callback runs only under the same conditions.
A delivered `add` event runs the handler only if `setupFileWatcher` has
attached it; before that the event is dropped unobserved. -/
inductive Step (cid : String) : SysState → SysState → Prop
  | readyFires (venv : VerifyEnv) (s : SysState)
      (hs : s.started = true) (hf : s.loginFailed = false) (hr : s.ready = false) :
      Step cid s { s with ready := true, addHandlerOn := true,
                          trace := s.trace ++ onClientReady cid venv }
  | loginFails (e : String) (s : SysState)
      (hs : s.started = true) (hf : s.loginFailed = false) (hr : s.ready = false) :
      Step cid s { s with loginFailed := true,
                          trace := s.trace ++ loginFailureActions e }
  | addHandled (ev : EventEnv) (s : SysState)
      (h : s.addHandlerOn = true) :
      Step cid s { s with trace := s.trace ++ handleAdd cid ev }
  | addDropped (ev : EventEnv) (s : SysState)
      (h : s.addHandlerOn = false) :
      Step cid s s

/-- Reachability from a state by dispatching events. -/
inductive Reachable (cid : String) (s0 : SysState) : SysState → Prop
  | refl : Reachable cid s0 s0
  | step {s t : SysState} : Reachable cid s0 s → Step cid s t → Reachable cid s0 t

/-! ## Concrete fixtures for counterexamples and witnesses -/

/-- An environment with all three required variables present and non-empty. -/
def envAll : String → Option String := fun v =>
  if v = "DISCORD_TOKEN" then some "tok-1"
  else if v = "CHANNEL_ID" then some "123"
  else if v = "WATCH_PATH" then some "/watch"
  else none

/-- The same environment with a different credential value. -/
def envAll2 : String → Option String := fun v =>
  if v = "DISCORD_TOKEN" then some "another-secret-credential" else envAll v

/-- An environment in which `CHANNEL_ID` is absent. -/
def envMissing : String → Option String := fun v =>
  if v = "DISCORD_TOKEN" then some "tok-1"
  else if v = "WATCH_PATH" then some "/watch"
  else none

/-- A text-capable destination channel. -/
def chGeneral : Channel :=
  { isTextChannel := true, name := "general" }

/-- A qualifying event for which every external call succeeds. -/
def evShot : EventEnv :=
  { filePath := "/watch/shot.png", fileExists := true,
    fetchResult := Except.ok (some chGeneral), sendResult := Except.ok () }

/-- A non-qualifying event (wrong extension). -/
def evNotes : EventEnv :=
  { filePath := "/watch/notes.txt", fileExists := true,
    fetchResult := Except.ok (some chGeneral), sendResult := Except.ok () }

/-- A qualifying event whose file has vanished before handling. -/
def evGone : EventEnv :=
  { filePath := "/watch/gone.png", fileExists := false,
    fetchResult := Except.ok (some chGeneral), sendResult := Except.ok () }

/-- A qualifying event whose channel fetch rejects. -/
def evFetchFail : EventEnv :=
  { filePath := "/watch/late.png", fileExists := true,
    fetchResult := Except.error "DiscordAPIError: Missing Access",
    sendResult := Except.ok () }

/-- A verification environment in which every check passes. -/
def venvAll : VerifyEnv :=
  { fetchResult := Except.ok (some chGeneral),
    permSend := true, permAttach := true, permView := true }

/-- The state reached from module load on `envAll` after the login promise
rejects with "Invalid token". -/
def postLoginFailState : SysState :=
  { initState envAll with
      loginFailed := true
      trace := (initState envAll).trace ++ loginFailureActions "Invalid token" }

/-! ## Handler shape lemmas -/

/-- A non-qualifying event produces exactly the debug trace line. -/
lemma handleAdd_not_png (cid : String) (ev : EventEnv)
    (h : toLower (extname ev.filePath) ≠ ".png") :
    handleAdd cid ev = [Action.log .debug ("File detected: " ++ ev.filePath)] := by
  simp [handleAdd, handleAddBody, h]

/-- A qualifying event always begins with the debug line, the detection log
and the existence check. -/
lemma handleAdd_png_shape (cid : String) (ev : EventEnv)
    (h : toLower (extname ev.filePath) = ".png") :
    ∃ rest, handleAdd cid ev =
      Action.log .debug ("File detected: " ++ ev.filePath) ::
      Action.log .info ("📁 New PNG file detected: " ++ ev.filePath) ::
      Action.statFile ev.filePath :: rest := by
  obtain ⟨p, fe, fr, sr⟩ := ev
  dsimp only at h ⊢
  cases fe <;> rcases fr with e | _ | ⟨⟨b, nm⟩⟩ <;> try cases b
  all_goals try rcases sr with e2 | u
  all_goals simp [handleAdd, handleAddBody, h]

/-! ## Validation lemmas -/

/-- Every action the validation loop emits is a debug log line. -/
lemma validateEnvList_logs (env : String → Option String) (vs : List String) :
    ∀ a ∈ (validateEnvList env vs).1, ∃ m, a = Action.log .debug m := by
  induction vs with
  | nil => simp [validateEnvList]
  | cons v rest ih =>
    intro a ha
    unfold validateEnvList at ha
    by_cases hv : isFalsy (env v) = true
    · simp [hv] at ha
    · simp [hv] at ha
      rcases ha with rfl | ha
      · exact ⟨_, rfl⟩
      · exact ih a ha

/-- The validation loop succeeds when every checked variable is set and
non-empty. -/
lemma validateEnvList_ok (env : String → Option String) (vs : List String)
    (h : ∀ v ∈ vs, isFalsy (env v) = false) :
    (validateEnvList env vs).2 = Except.ok () := by
  induction vs with
  | nil => rfl
  | cons v rest ih =>
    have hv := h v (by simp)
    unfold validateEnvList
    simp [hv]
    exact ih (fun v' hm => h v' (by simp [hm]))

/-- If some checked variable is falsy, the validation loop throws the
descriptive error for one of the falsy variables. -/
lemma validateEnvList_error (env : String → Option String) (vs : List String) (v : String)
    (hmem : v ∈ vs) (hfalsy : isFalsy (env v) = true) :
    ∃ v', v' ∈ vs ∧ isFalsy (env v') = true ∧
      (validateEnvList env vs).2 =
        Except.error ("Missing required environment variable: " ++ v') := by
  induction vs with
  | nil => simp at hmem
  | cons w rest ih =>
    by_cases hw : isFalsy (env w) = true
    · exact ⟨w, by simp, hw, by simp [validateEnvList, hw]⟩
    · have hv : v ∈ rest := by
        rcases List.mem_cons.mp hmem with rfl | h
        · exact absurd hfalsy hw
        · exact h
      obtain ⟨v', hm', hf', he'⟩ := ih hv
      exact ⟨v', by simp [hm'], hf', by simp [validateEnvList, hw, he']⟩

/-- A validation throw aborts module load: the startup outcome is the
validation error and the startup trace is the validation trace. -/
lemma startup_of_invalid (env : String → Option String) (e : String)
    (h : (validateEnv env).2 = Except.error e) :
    startup env = ((validateEnv env).1, Except.error e) := by
  simp [startup, h]

/-! ## Runtime action classification -/

/-- Channel verification performs only runtime actions. -/
lemma verifyChannelAccess_all_runtime (cid : String) (venv : VerifyEnv) :
    (verifyChannelAccess cid venv).all isRuntimeAction = true := by
  obtain ⟨fr, ps, pa, pv⟩ := venv
  rcases fr with e | _ | ⟨⟨b, nm⟩⟩ <;> try cases b
  all_goals try cases ps
  all_goals try cases pa
  all_goals rfl

/-- The ready handler performs only runtime actions. -/
lemma onClientReady_all_runtime (cid : String) (venv : VerifyEnv) :
    (onClientReady cid venv).all isRuntimeAction = true := by
  simp [onClientReady, List.all_cons, List.all_append,
    verifyChannelAccess_all_runtime cid venv, isRuntimeAction]

/-- The add handler performs only runtime actions. -/
lemma handleAdd_all_runtime (cid : String) (ev : EventEnv) :
    (handleAdd cid ev).all isRuntimeAction = true := by
  obtain ⟨p, fe, fr, sr⟩ := ev
  by_cases hq : toLower (extname p) = ".png" <;>
    cases fe <;> rcases fr with e | _ | ⟨⟨b, nm⟩⟩ <;> try cases b
  all_goals try rcases sr with e2 | u
  all_goals simp [handleAdd, handleAddBody, hq, isRuntimeAction]

/-- The login failure callback performs only runtime actions. -/
lemma loginFailureActions_all_runtime (e : String) :
    (loginFailureActions e).all isRuntimeAction = true := rfl

/-- A list of runtime actions creates no watcher, calls login zero times,
and never exits the process. -/
lemma runtime_trace_props {l : List Action} (h : l.all isRuntimeAction = true) :
    l.countP isCreateWatcher = 0 ∧ l.countP isLoginCall = 0 ∧ Action.exit ∉ l := by
  rw [List.all_eq_true] at h
  refine ⟨List.countP_eq_zero.mpr ?_, List.countP_eq_zero.mpr ?_, ?_⟩
  · intro a ha
    have := h a ha
    cases a <;> simp_all [isRuntimeAction, isCreateWatcher]
  · intro a ha
    have := h a ha
    cases a <;> simp_all [isRuntimeAction, isLoginCall]
  · intro hmem
    have := h _ hmem
    simp [isRuntimeAction] at this

/-! ## System invariant -/

/-- After a valid module load: the watcher was created exactly once, login
was called exactly once, the process never exited, and the add handler is
attached only in the ready state. -/
lemma initState_good (env : String → Option String)
    (hvalid : ∀ v ∈ requiredEnvVars, isFalsy (env v) = false) :
    (initState env).trace.countP isCreateWatcher = 1 ∧
    (initState env).trace.countP isLoginCall = 1 ∧
    Action.exit ∉ (initState env).trace ∧
    ((initState env).addHandlerOn = true → (initState env).ready = true) := by
  have hok : (validateEnv env).2 = Except.ok () :=
    validateEnvList_ok env requiredEnvVars hvalid
  have htr : (initState env).trace = (validateEnv env).1 ++
      [Action.createClient,
       Action.createWatcher ((env "WATCH_PATH").getD ""),
       Action.registerClientDiagnosticHandlers,
       Action.registerReadyHandler,
       Action.registerWatcherErrorHandler,
       Action.log .info "🔄 Attempting to connect to Discord...",
       Action.loginCall] := by
    simp [initState, startup, hok]
  have hlogs := validateEnvList_logs env requiredEnvVars
  have hcw : (validateEnv env).1.countP isCreateWatcher = 0 :=
    List.countP_eq_zero.mpr (by
      intro a ha
      obtain ⟨m, rfl⟩ := hlogs a ha
      simp [isCreateWatcher])
  have hlc : (validateEnv env).1.countP isLoginCall = 0 :=
    List.countP_eq_zero.mpr (by
      intro a ha
      obtain ⟨m, rfl⟩ := hlogs a ha
      simp [isLoginCall])
  have hex : Action.exit ∉ (validateEnv env).1 := by
    intro hmem
    obtain ⟨m, hm⟩ := hlogs _ hmem
    exact Action.noConfusion hm
  refine ⟨?_, ?_, ?_, ?_⟩
  · rw [htr, List.countP_append, hcw]
    rfl
  · rw [htr, List.countP_append, hlc]
    rfl
  · rw [htr]
    intro hmem
    rcases List.mem_append.mp hmem with h | h
    · exact hex h
    · simp at h
  · simp [initState]

/-- Every event dispatch preserves the system invariant. -/
lemma step_preserves_good (cid : String) {s t : SysState} (hst : Step cid s t)
    (h : s.trace.countP isCreateWatcher = 1 ∧ s.trace.countP isLoginCall = 1 ∧
         Action.exit ∉ s.trace ∧ (s.addHandlerOn = true → s.ready = true)) :
    t.trace.countP isCreateWatcher = 1 ∧ t.trace.countP isLoginCall = 1 ∧
    Action.exit ∉ t.trace ∧ (t.addHandlerOn = true → t.ready = true) := by
  obtain ⟨hc, hl, he, hh⟩ := h
  cases hst with
  | readyFires venv s hs hf hr =>
    obtain ⟨r1, r2, r3⟩ := runtime_trace_props (onClientReady_all_runtime cid venv)
    refine ⟨?_, ?_, ?_, ?_⟩
    · simp [List.countP_append, hc, r1]
    · simp [List.countP_append, hl, r2]
    · simp only [List.mem_append]
      rintro (hm | hm)
      · exact he hm
      · exact r3 hm
    · intro _
      rfl
  | loginFails e s hs hf hr =>
    obtain ⟨r1, r2, r3⟩ := runtime_trace_props (loginFailureActions_all_runtime e)
    refine ⟨?_, ?_, ?_, ?_⟩
    · simp [List.countP_append, hc, r1]
    · simp [List.countP_append, hl, r2]
    · simp only [List.mem_append]
      rintro (hm | hm)
      · exact he hm
      · exact r3 hm
    · exact hh
  | addHandled ev s hreg =>
    obtain ⟨r1, r2, r3⟩ := runtime_trace_props (handleAdd_all_runtime cid ev)
    refine ⟨?_, ?_, ?_, ?_⟩
    · simp [List.countP_append, hc, r1]
    · simp [List.countP_append, hl, r2]
    · simp only [List.mem_append]
      rintro (hm | hm)
      · exact he hm
      · exact r3 hm
    · exact hh
  | addDropped ev s hreg =>
    exact ⟨hc, hl, he, hh⟩

/-- The system invariant holds in every reachable state after a valid
module load. -/
lemma reachable_invariant (cid : String) (env : String → Option String) (s : SysState)
    (hvalid : ∀ v ∈ requiredEnvVars, isFalsy (env v) = false)
    (hr : Reachable cid (initState env) s) :
    s.trace.countP isCreateWatcher = 1 ∧ s.trace.countP isLoginCall = 1 ∧
    Action.exit ∉ s.trace ∧ (s.addHandlerOn = true → s.ready = true) := by
  induction hr with
  | refl => exact initState_good env hvalid
  | step hr hst ih => exact step_preserves_good cid hst ih

/-! ## Claims -/

/-- C1: an added file is handed to the upload step (the handler proceeds
past the filter, marked by the detection log) if and only if its extension,
compared case-insensitively, equals ".png"; a non-qualifying event produces
nothing beyond the single debug-level trace line.  In particular "a.PNG" and
"a.png" qualify while "a.jpg" and "a.png.bak" do not. -/
theorem c1_png_filter (cid : String) (ev : EventEnv) :
    (Action.log .info ("📁 New PNG file detected: " ++ ev.filePath) ∈ handleAdd cid ev
       ↔ toLower (extname ev.filePath) = ".png")
    ∧ (toLower (extname ev.filePath) ≠ ".png" →
        handleAdd cid ev = [Action.log .debug ("File detected: " ++ ev.filePath)])
    ∧ toLower (extname "a.PNG") = ".png" ∧ toLower (extname "a.png") = ".png"
    ∧ toLower (extname "a.jpg") ≠ ".png" ∧ toLower (extname "a.png.bak") ≠ ".png" := by
  refine ⟨⟨fun hm => ?_, fun h => ?_⟩, fun h => handleAdd_not_png cid ev h,
    by decide, by decide, by decide, by decide⟩
  · by_contra h
    rw [handleAdd_not_png cid ev h] at hm
    simp at hm
  · obtain ⟨rest, hr⟩ := handleAdd_png_shape cid ev h
    rw [hr]
    simp

/-- C1 witness: a concrete ".txt" event is ignored with only the debug
trace line. -/
theorem c1_witness :
    handleAdd "123" evNotes = [Action.log .debug ("File detected: " ++ evNotes.filePath)] :=
  (c1_png_filter "123" evNotes).2.1 (by decide)

/-- C2: if any of the three required configuration values is missing or
empty, the module throws the descriptive fatal error during validation and
the whole startup trace consists of log lines only — in particular no
network call (login, fetch, send) and no watcher creation happened. -/
theorem c2_missing_config (env : String → Option String) (v : String)
    (hmem : v ∈ requiredEnvVars) (hfalsy : isFalsy (env v) = true) :
    (∃ v', v' ∈ requiredEnvVars ∧ isFalsy (env v') = true ∧
      (startup env).2 = Except.error ("Missing required environment variable: " ++ v'))
    ∧ ∀ a ∈ (startup env).1, ∃ m, a = Action.log .debug m := by
  obtain ⟨v', hm', hf', he'⟩ := validateEnvList_error env requiredEnvVars v hmem hfalsy
  have hs := startup_of_invalid env _ he'
  constructor
  · exact ⟨v', hm', hf', by rw [hs]⟩
  · intro a ha
    rw [hs] at ha
    exact validateEnvList_logs env requiredEnvVars a ha

/-- C2 witness: with `CHANNEL_ID` absent, startup aborts with the
descriptive error and performs only log actions. -/
theorem c2_witness :
    (∃ v', v' ∈ requiredEnvVars ∧ isFalsy (envMissing v') = true ∧
      (startup envMissing).2 =
        Except.error ("Missing required environment variable: " ++ v'))
    ∧ ∀ a ∈ (startup envMissing).1, ∃ m, a = Action.log .debug m :=
  c2_missing_config envMissing "CHANNEL_ID" (by decide) (by decide)

/-- C3 counterexample: with a fully valid environment, the module-load
trace already contains the watcher creation (position 4) while the login
call comes only later (position 9), and in the post-load state no
authentication has happened (`ready = false`); so the Watch Subscription is
not created "only after authentication succeeds". -/
theorem c3_watcher_before_login :
    (initState envAll).ready = false
    ∧ (initState envAll).loginFailed = false
    ∧ (initState envAll).trace.countP isCreateWatcher = 1
    ∧ (initState envAll).trace.get? 4 = some (Action.createWatcher "/watch")
    ∧ (initState envAll).trace.get? 9 = some Action.loginCall := by
  decide

/-- C3 (amended): the Watch Subscription is created exactly once, at module
load and hence before authentication is even attempted; but the File Event
handler is attached only after authentication succeeds, so in every
reachable state the add handler being active implies the Session is
authenticated (no File Event is handled before authentication). -/
theorem c3_watcher_once_handler_after_auth (cid : String) (env : String → Option String)
    (s : SysState) (hvalid : ∀ v ∈ requiredEnvVars, isFalsy (env v) = false)
    (hr : Reachable cid (initState env) s) :
    s.trace.countP isCreateWatcher = 1
    ∧ (s.addHandlerOn = true → s.ready = true) :=
  ⟨(reachable_invariant cid env s hvalid hr).1,
   (reachable_invariant cid env s hvalid hr).2.2.2⟩

/-- C3 witness: the amended statement at the concrete post-load state. -/
theorem c3_witness :
    (initState envAll).trace.countP isCreateWatcher = 1
    ∧ ((initState envAll).addHandlerOn = true → (initState envAll).ready = true) :=
  c3_watcher_once_handler_after_auth "123" envAll (initState envAll)
    (by decide) Reachable.refl

/-- C4 counterexample: the login failure callback performs exactly two log
actions and no process-exit action, so the process does not exit on
authentication failure. -/
theorem c4_no_exit_on_login_failure :
    loginFailureActions "Invalid token" =
      [Action.log .error "❌ Failed to connect to Discord: Invalid token",
       Action.log .debug "Login error details: Invalid token"]
    ∧ Action.exit ∉ loginFailureActions "Invalid token" := by
  decide

/-- C4 (amended): if authentication fails, the failure is logged (error
plus debug detail) and no retry is performed — in every reachable state the
login call appears exactly once in the trace — but the process does not
exit: no exit action ever occurs. -/
theorem c4_login_failure_logged_no_retry (cid : String) (env : String → Option String)
    (s : SysState) (e : String)
    (hvalid : ∀ v ∈ requiredEnvVars, isFalsy (env v) = false)
    (hr : Reachable cid (initState env) s) :
    loginFailureActions e =
      [Action.log .error ("❌ Failed to connect to Discord: " ++ e),
       Action.log .debug ("Login error details: " ++ e)]
    ∧ s.trace.countP isLoginCall = 1
    ∧ Action.exit ∉ s.trace :=
  ⟨rfl, (reachable_invariant cid env s hvalid hr).2.1,
   (reachable_invariant cid env s hvalid hr).2.2.1⟩

/-- C4 witness: the amended statement at the concrete state reached after a
rejected login. -/
theorem c4_witness :
    loginFailureActions "Invalid token" =
      [Action.log .error ("❌ Failed to connect to Discord: " ++ "Invalid token"),
       Action.log .debug ("Login error details: " ++ "Invalid token")]
    ∧ postLoginFailState.trace.countP isLoginCall = 1
    ∧ Action.exit ∉ postLoginFailState.trace :=
  c4_login_failure_logged_no_retry "123" envAll postLoginFailState "Invalid token"
    (by decide)
    (Reachable.step Reachable.refl
      (Step.loginFails "Invalid token" (initState envAll) rfl rfl rfl))

/-- C5: any failure inside one event's `try` body is caught at the boundary
of that event's handler and converted into exactly two log lines appended to
the body's actions, and the handling of a sequence of events is the
independent concatenation of the per-event handlers, so an error in one
event leaves every subsequent event's handling unchanged. -/
theorem c5_event_isolation (cid : String) (ev : EventEnv) (rest : List EventEnv)
    (e : String) (hfail : (handleAddBody cid ev).2 = Except.error e) :
    handleAdd cid ev = (handleAddBody cid ev).1 ++
      [Action.log .error ("❌ Error processing file: " ++ e),
       Action.log .debug ("Error details: " ++ e)]
    ∧ handleEvents cid (ev :: rest) = handleAdd cid ev ++ handleEvents cid rest := by
  refine ⟨?_, rfl⟩
  simp [handleAdd, hfail]

/-- C5 witness: a rejected channel fetch is converted to log lines at the
event boundary, and a following valid event is still handled. -/
theorem c5_witness :
    handleAdd "123" evFetchFail = (handleAddBody "123" evFetchFail).1 ++
      [Action.log .error ("❌ Error processing file: " ++ "DiscordAPIError: Missing Access"),
       Action.log .debug ("Error details: " ++ "DiscordAPIError: Missing Access")]
    ∧ handleEvents "123" (evFetchFail :: [evShot]) =
        handleAdd "123" evFetchFail ++ handleEvents "123" [evShot] :=
  c5_event_isolation "123" evFetchFail [evShot] "DiscordAPIError: Missing Access" rfl

/-- C6: a qualifying event whose file no longer exists at handling time
produces exactly the trace line, the detection log, the stat, and the error
log — and zero upload calls. -/
theorem c6_vanished_file (cid : String) (ev : EventEnv)
    (hq : toLower (extname ev.filePath) = ".png") (he : ev.fileExists = false) :
    handleAdd cid ev =
      [Action.log .debug ("File detected: " ++ ev.filePath),
       Action.log .info ("📁 New PNG file detected: " ++ ev.filePath),
       Action.statFile ev.filePath,
       Action.log .error ("❌ File " ++ ev.filePath ++ " no longer exists")]
    ∧ (handleAdd cid ev).countP isSendFile = 0 := by
  have h1 : handleAdd cid ev =
      [Action.log .debug ("File detected: " ++ ev.filePath),
       Action.log .info ("📁 New PNG file detected: " ++ ev.filePath),
       Action.statFile ev.filePath,
       Action.log .error ("❌ File " ++ ev.filePath ++ " no longer exists")] := by
    simp [handleAdd, handleAddBody, hq, he]
  rw [h1]
  exact ⟨rfl, rfl⟩

/-- C6 witness: the vanished-file behaviour at a concrete event. -/
theorem c6_witness :
    handleAdd "123" evGone =
      [Action.log .debug ("File detected: " ++ evGone.filePath),
       Action.log .info ("📁 New PNG file detected: " ++ evGone.filePath),
       Action.statFile evGone.filePath,
       Action.log .error ("❌ File " ++ evGone.filePath ++ " no longer exists")]
    ∧ (handleAdd "123" evGone).countP isSendFile = 0 :=
  c6_vanished_file "123" evGone (by decide) rfl

/-- C7: startup channel verification is advisory — whatever its outcome,
the ready handler still attaches the add handler; every qualifying event
that passes the existence check performs exactly one fresh channel fetch (no
caching); and if that per-event resolution rejects, returns null, or yields
a non-text channel, the event's body raises an error. -/
theorem c7_advisory_verification (cid : String) (venv : VerifyEnv) (ev : EventEnv) :
    Action.registerAddHandler ∈ onClientReady cid venv
    ∧ (toLower (extname ev.filePath) = ".png" → ev.fileExists = true →
        (handleAdd cid ev).countP isFetchChannel = 1)
    ∧ (toLower (extname ev.filePath) = ".png" → ev.fileExists = true →
        (∀ e, ev.fetchResult = Except.error e →
          ∃ m, (handleAddBody cid ev).2 = Except.error m)
        ∧ (ev.fetchResult = Except.ok none →
          ∃ m, (handleAddBody cid ev).2 = Except.error m)
        ∧ (∀ ch, ev.fetchResult = Except.ok (some ch) → ch.isTextChannel = false →
          ∃ m, (handleAddBody cid ev).2 = Except.error m)) := by
  refine ⟨?_, ?_, ?_⟩
  · obtain ⟨fr, ps, pa, pv⟩ := venv
    rcases fr with e | _ | ⟨⟨b, nm⟩⟩ <;> try cases b
    all_goals try cases ps
    all_goals try cases pa
    all_goals simp [onClientReady, verifyChannelAccess]
  · intro hq he
    obtain ⟨p, fe, fr, sr⟩ := ev
    dsimp only at hq he ⊢
    subst he
    rcases fr with e | _ | ⟨⟨b, nm⟩⟩ <;> try cases b
    all_goals try rcases sr with e2 | u
    all_goals simp [handleAdd, handleAddBody, hq, isFetchChannel, List.countP_cons]
  · intro hq he
    obtain ⟨p, fe, fr, sr⟩ := ev
    dsimp only at hq he ⊢
    subst he
    rcases fr with e | _ | ⟨⟨b, nm⟩⟩ <;> try cases b
    all_goals try rcases sr with e2 | u
    all_goals simp [handleAddBody, hq]

/-- C7 witness: the add handler is attached under an all-pass verification,
and a concrete valid event performs exactly one channel fetch. -/
theorem c7_witness :
    Action.registerAddHandler ∈ onClientReady "123" venvAll
    ∧ (handleAdd "123" evShot).countP isFetchChannel = 1 :=
  ⟨(c7_advisory_verification "123" venvAll evShot).1,
   (c7_advisory_verification "123" venvAll evShot).2.1 (by decide) rfl⟩

/-- C8: a qualifying event that passes the existence check and resolves a
text channel issues exactly one upload call, sending the file at the event's
path with the file's base name as the attachment display name. -/
theorem c8_single_upload (cid : String) (ev : EventEnv) (ch : Channel)
    (hq : toLower (extname ev.filePath) = ".png") (he : ev.fileExists = true)
    (hc : ev.fetchResult = Except.ok (some ch)) (ht : ch.isTextChannel = true) :
    (handleAdd cid ev).countP isSendFile = 1
    ∧ Action.sendFile ev.filePath (basename ev.filePath) ∈ handleAdd cid ev := by
  rcases hs : ev.sendResult with e | u <;>
    simp [handleAdd, handleAddBody, hq, he, hc, ht, hs, isSendFile, List.countP_cons]

/-- C8 witness: creating shot.png leads to exactly one upload call with
attachment name shot.png. -/
theorem c8_witness :
    (handleAdd "123" evShot).countP isSendFile = 1
    ∧ Action.sendFile "/watch/shot.png" "shot.png" ∈ handleAdd "123" evShot :=
  c8_single_upload "123" evShot chGeneral (by decide) rfl rfl rfl

/-- C9: with all three values set, the validator emits one diagnostic line
per checked value; the credential line is the fixed redacted text, and the
entire validation log output is unchanged when only the credential value
differs — it is independent of the credential. -/
theorem c9_redacted_validation (env1 env2 : String → Option String)
    (h1 : ∀ v ∈ requiredEnvVars, isFalsy (env1 v) = false)
    (h2 : ∀ v ∈ requiredEnvVars, isFalsy (env2 v) = false)
    (hc : env1 "CHANNEL_ID" = env2 "CHANNEL_ID")
    (hw : env1 "WATCH_PATH" = env2 "WATCH_PATH") :
    (validateEnv env1).1.length = requiredEnvVars.length
    ∧ (validateEnv env1).1 = (validateEnv env2).1
    ∧ (validateEnv env1).1.head? =
        some (Action.log .debug ("DISCORD_TOKEN is set to: " ++ "[HIDDEN]")) := by
  have t1 := h1 "DISCORD_TOKEN" (by simp [requiredEnvVars])
  have c1h := h1 "CHANNEL_ID" (by simp [requiredEnvVars])
  have w1 := h1 "WATCH_PATH" (by simp [requiredEnvVars])
  have t2 := h2 "DISCORD_TOKEN" (by simp [requiredEnvVars])
  have c2h := h2 "CHANNEL_ID" (by simp [requiredEnvVars])
  have w2 := h2 "WATCH_PATH" (by simp [requiredEnvVars])
  refine ⟨?_, ?_, ?_⟩ <;>
    simp [validateEnv, validateEnvList, requiredEnvVars, shownValue,
      t1, c1h, w1, t2, c2h, w2, hc, hw]

/-- C9 witness: two environments differing only in the credential produce
identical validation logs, three lines, credential redacted. -/
theorem c9_witness :
    (validateEnv envAll).1.length = requiredEnvVars.length
    ∧ (validateEnv envAll).1 = (validateEnv envAll2).1
    ∧ (validateEnv envAll).1.head? =
        some (Action.log .debug ("DISCORD_TOKEN is set to: " ++ "[HIDDEN]")) :=
  c9_redacted_validation envAll envAll2 (by decide) (by decide) rfl rfl

/-- C10: the per-event checks are ordered filter, existence, resolution,
upload: an event failing the extension filter or the existence check makes
zero messaging-platform calls; a channel fetch in the trace implies the
filter and existence checks passed; an upload in the trace implies
additionally that the fetch returned a text-capable channel. -/
theorem c10_check_order (cid : String) (ev : EventEnv) :
    ((toLower (extname ev.filePath) ≠ ".png" ∨ ev.fileExists = false) →
      (handleAdd cid ev).countP isPlatformCall = 0)
    ∧ (Action.fetchChannel cid ∈ handleAdd cid ev →
        toLower (extname ev.filePath) = ".png" ∧ ev.fileExists = true)
    ∧ (∀ p n, Action.sendFile p n ∈ handleAdd cid ev →
        toLower (extname ev.filePath) = ".png" ∧ ev.fileExists = true ∧
        ∃ ch, ev.fetchResult = Except.ok (some ch) ∧ ch.isTextChannel = true) := by
  obtain ⟨p, fe, fr, sr⟩ := ev
  dsimp only
  by_cases hq : toLower (extname p) = ".png" <;>
    cases fe <;> rcases fr with e | _ | ⟨⟨b, nm⟩⟩ <;> try cases b
  all_goals try rcases sr with e2 | u
  all_goals
    simp_all [handleAdd, handleAddBody, isPlatformCall, isSendFile, isFetchChannel,
      isLoginCall, List.countP_cons]

/-- C10 witness: a concrete non-PNG event makes zero platform calls. -/
theorem c10_witness :
    (handleAdd "123" evNotes).countP isPlatformCall = 0 :=
  (c10_check_order "123" evNotes).1 (Or.inl (by decide))

end FileRelay
